import Mathlib

/-!
Shallow embedding of the identity-consolidation service in `src/index.ts`.

The Contact Store (a PostgreSQL table accessed through `pg`) is modelled as a
list of `Contact` rows together with the `SERIAL` id counter.  SQL `NULL` and
an absent JSON request field are both modelled as `none`; JavaScript strict
equality `===` between a row field (string or `NULL`) and a request field
(string or `undefined`) is true only when both sides are present and equal
strings, which `jsEq` captures.  JavaScript truthiness of an optional string
(`if (email)`, `.filter(Boolean)`) is captured by `truthy`: absent values and
the empty string are falsy.  `CURRENT_TIMESTAMP` is modelled by an explicit
`now : Nat` argument threaded through each operation.
-/

namespace IdentityService

inductive LinkPrecedence
  | primary
  | secondary
deriving DecidableEq, Repr

structure Contact where
  id : Nat
  phoneNumber : Option String
  email : Option String
  linkedId : Option Nat
  linkPrecedence : LinkPrecedence
  createdAt : Nat
  updatedAt : Nat
  deletedAt : Option Nat
deriving DecidableEq, Repr

/-- The body of an `/identify` request (`IdentifyRequest` in the source). -/
structure Obs where
  email : Option String
  phoneNumber : Option String
deriving DecidableEq, Repr

/-- The `contact` object of an `IdentifyResponse`.  The source spells the
primary id field `primaryContatctId`; the element type of `emails` and
`phoneNumbers` is `Option String` because `buildResponse` puts the primary's
attribute into the set unfiltered, so a JavaScript `null` can appear in the
serialized array. -/
structure Resp where
  primaryContatctId : Nat
  emails : List (Option String)
  phoneNumbers : List (Option String)
  secondaryContactIds : List Nat
deriving DecidableEq, Repr

/-- Failure modes of one `/identify` operation: the 400 for a missing
email and phone, a failing Contact Store call, and the `Error` thrown by
`buildResponse` when no primary is present.  The catch-all handler maps the
latter two to the same generic 500 response. -/
inductive SErr
  | invalid
  | store
  | noPrimary
deriving DecidableEq, Repr

/-- The persisted state: the `Contact` table plus the `SERIAL` counter. -/
structure Store where
  contacts : List Contact
  nextId : Nat
deriving DecidableEq, Repr

instance : DecidableEq (Except SErr Resp) := fun a b =>
  match a, b with
  | .ok x, .ok y => if h : x = y then .isTrue (by rw [h]) else .isFalse (by simp [h])
  | .error x, .error y => if h : x = y then .isTrue (by rw [h]) else .isFalse (by simp [h])
  | .ok _, .error _ => .isFalse (by simp)
  | .error _, .ok _ => .isFalse (by simp)

/-- JavaScript truthiness of an optional string: `undefined`/`null` and `""`
are falsy. -/
def truthy : Option String → Bool
  | some s => !(s == "")
  | none => false

/-- JavaScript `===` between an optional row field (`string | null`) and an
optional request field (`string | undefined`): true only when both are
present and equal (`null === undefined` is false). -/
def jsEq : Option String → Option String → Bool
  | some a, some b => a == b
  | _, _ => false

def isPrimary (c : Contact) : Bool := c.linkPrecedence == .primary

def isSecondary (c : Contact) : Bool := c.linkPrecedence == .secondary

/-- `getRelatedContacts`: all non-deleted rows whose email equals the given
email or whose phone equals the given phone; a falsy attribute contributes no
condition, and with no condition the query is `WHERE false`. -/
def getRelatedContacts (contacts : List Contact) (email phoneNumber : Option String) :
    List Contact :=
  if truthy email || truthy phoneNumber then
    contacts.filter (fun c => c.deletedAt == none &&
      ((truthy email && c.email == email) ||
       (truthy phoneNumber && c.phoneNumber == phoneNumber)))
  else []

/-- One round of the recursive CTE in `getContactChain`: add every non-deleted
row whose `linkedId` is already in the id set. -/
def chainGrow (contacts : List Contact) (ids : List Nat) : List Nat :=
  ids ++ (contacts.filter (fun c => c.deletedAt == none &&
    (match c.linkedId with
     | some l => ids.contains l
     | none => false) &&
    !(ids.contains c.id))).map (fun c => c.id)

def chainIdsAux (contacts : List Contact) : Nat → List Nat → List Nat
  | 0, ids => ids
  | n + 1, ids => chainIdsAux contacts n (chainGrow contacts ids)

def insertByCreated (c : Contact) : List Contact → List Contact
  | [] => [c]
  | d :: ds => if c.createdAt < d.createdAt then c :: d :: ds else d :: insertByCreated c ds

/-- Stable ascending sort by `createdAt`, modelling `ORDER BY createdAt ASC`. -/
def sortByCreated : List Contact → List Contact
  | [] => []
  | c :: cs => insertByCreated c (sortByCreated cs)

/-- `getContactChain`: the recursive CTE follows `linkedId` references *into*
the start row only (children, grandchildren, ...); it never walks from a
secondary up to its primary.  Rows are returned ordered by `createdAt`. -/
def getContactChain (contacts : List Contact) (root : Contact) : List Contact :=
  if contacts.any (fun c => c.id == root.id && c.deletedAt == none) then
    sortByCreated (contacts.filter (fun c => c.deletedAt == none &&
      (chainIdsAux contacts contacts.length [root.id]).contains c.id))
  else []

/-- The row produced by `createContact`'s `INSERT ... RETURNING *`. -/
def createContact (s : Store) (email phoneNumber : Option String) (linkedId : Option Nat)
    (linkPrecedence : LinkPrecedence) (now : Nat) : Contact :=
  ⟨s.nextId, phoneNumber, email, linkedId, linkPrecedence, now, now, none⟩

/-- The store effect of `createContact`'s `INSERT`. -/
def insertContact (s : Store) (c : Contact) : Store :=
  ⟨s.contacts ++ [c], s.nextId + 1⟩

/-- `updateContactToSecondary`: `UPDATE Contact SET linkedId = $1,
linkPrecedence = 'secondary', updatedAt = now WHERE id = $2`. -/
def updateContactToSecondary (contacts : List Contact) (contactId linkedId now : Nat) :
    List Contact :=
  contacts.map (fun c =>
    if c.id == contactId then
      { c with linkedId := some linkedId, linkPrecedence := .secondary, updatedAt := now }
    else c)

/-- JavaScript `Set` insertion-order deduplication. -/
def dedupFirstAux (seen : List (Option String)) : List (Option String) → List (Option String)
  | [] => []
  | a :: l => if seen.contains a then dedupFirstAux seen l else a :: dedupFirstAux (a :: seen) l

def dedupFirst (l : List (Option String)) : List (Option String) :=
  dedupFirstAux [] l

/-- `buildResponse`: the primary's own email/phone is put into the `Set`
unfiltered (so a `null` survives), the secondaries' values are passed through
`.filter(Boolean)` first. -/
def buildResponse (contacts : List Contact) : Except SErr Resp :=
  match contacts.find? isPrimary with
  | none => .error .noPrimary
  | some primary =>
    let secondary := contacts.filter isSecondary
    .ok { primaryContatctId := primary.id,
          emails := dedupFirst (primary.email :: (secondary.map (fun c => c.email)).filter truthy),
          phoneNumbers :=
            dedupFirst (primary.phoneNumber ::
              (secondary.map (fun c => c.phoneNumber)).filter truthy),
          secondaryContactIds := secondary.map (fun c => c.id) }

/-- Failure injection for the Contact Store: `failAt = some k` makes the k-th
store call of the operation raise, modelling a `pg` query error. -/
def fails (failAt : Option Nat) (k : Nat) : Bool := failAt == some k

/-- `primaries.reduce((a, b) => new Date(a.createdAt) < new Date(b.createdAt) ? a : b)`. -/
def reduceOldest (p0 : Contact) (ps : List Contact) : Contact :=
  ps.foldl (fun a b => if a.createdAt < b.createdAt then a else b) p0

/-- The demotion loop of the merge step: one `UPDATE` per non-oldest primary,
applied sequentially; a failing call aborts the loop, keeping the updates
already applied. -/
def demoteLoop (oldestId now : Nat) (failAt : Option Nat) :
    Nat → List Contact → List Contact → Bool × List Contact
  | _, contacts, [] => (true, contacts)
  | k, contacts, p :: rest =>
    if p.id == oldestId then demoteLoop oldestId now failAt k contacts rest
    else if fails failAt k then (false, contacts)
    else demoteLoop oldestId now failAt (k + 1)
      (updateContactToSecondary contacts p.id oldestId now) rest

/-- Lines 149-154 of the source: insert a row exactly when the exact
`(email, phoneNumber)` pair is not already in the chain (under JavaScript
`===`) and the observation carries a truthy attribute value the chain does
not yet contain. -/
def shouldInsert (o : Obs) (fullChain : List Contact) : Bool :=
  !(fullChain.any (fun c => jsEq c.email o.email && jsEq c.phoneNumber o.phoneNumber)) &&
  ((truthy o.email && !(fullChain.any (fun c => jsEq c.email o.email))) ||
   (truthy o.phoneNumber && !(fullChain.any (fun c => jsEq c.phoneNumber o.phoneNumber))))

/-- Lines 160-168 of the source: if the in-memory chain holds more than one
primary, demote every non-oldest one, then render the (unrefreshed) chain.
`base` is the index of the operation's next store call. -/
def mergePhase (s1 : Store) (fullChain2 : List Contact) (now : Nat) (failAt : Option Nat)
    (base : Nat) : Except SErr Resp × Store :=
  match fullChain2.filter isPrimary with
  | [] => (buildResponse fullChain2, s1)
  | p0 :: ps =>
    if ps.isEmpty then (buildResponse fullChain2, s1)
    else
      match demoteLoop (reduceOldest p0 ps).id now failAt base s1.contacts (p0 :: ps) with
      | (true, cs) => (buildResponse fullChain2, ⟨cs, s1.nextId⟩)
      | (false, cs) => (.error .store, ⟨cs, s1.nextId⟩)

/-- Lines 149-168 of the source: the branch taken when the resolved chain has
a primary — optionally insert a secondary (store call 2), then run the merge
phase on the in-memory chain. -/
def attachAndMerge (s : Store) (o : Obs) (fullChain : List Contact) (primary : Contact)
    (now : Nat) (failAt : Option Nat) : Except SErr Resp × Store :=
  if shouldInsert o fullChain && fails failAt 2 then (.error .store, s)
  else if shouldInsert o fullChain then
    mergePhase
      (insertContact s (createContact s o.email o.phoneNumber (some primary.id) .secondary now))
      (fullChain ++ [createContact s o.email o.phoneNumber (some primary.id) .secondary now])
      now failAt 3
  else mergePhase s fullChain now failAt 2

/-- The body of `app.post('/identify')` after the `getRelatedContacts` call,
taking the matched rows as an argument (the source only ever uses
`related.length` and `related[0]`).  Store calls are numbered from 1
(`getRelatedContacts` was call 0). -/
def identifyCore (s : Store) (o : Obs) (related : List Contact) (now : Nat)
    (failAt : Option Nat) : Except SErr Resp × Store :=
  match related with
  | [] =>
    if fails failAt 1 then (.error .store, s)
    else (buildResponse [createContact s o.email o.phoneNumber none .primary now],
          insertContact s (createContact s o.email o.phoneNumber none .primary now))
  | r :: _ =>
    if fails failAt 1 then (.error .store, s)
    else
      match (getContactChain s.contacts r).find? isPrimary with
      | none =>
        if fails failAt 2 then (.error .store, s)
        else (buildResponse [createContact s o.email o.phoneNumber none .primary now],
              insertContact s (createContact s o.email o.phoneNumber none .primary now))
      | some primary => attachAndMerge s o (getContactChain s.contacts r) primary now failAt

/-- One `/identify` operation with failure injection: request validation,
then `getRelatedContacts` (store call 0), then the consolidation body. -/
def identifyF (s : Store) (o : Obs) (now : Nat) (failAt : Option Nat) :
    Except SErr Resp × Store :=
  if !truthy o.email && !truthy o.phoneNumber then (.error .invalid, s)
  else if fails failAt 0 then (.error .store, s)
  else identifyCore s o (getRelatedContacts s.contacts o.email o.phoneNumber) now failAt

/-- One `/identify` operation with every store call succeeding. -/
def identify (s : Store) (o : Obs) (now : Nat) : Except SErr Resp × Store :=
  identifyF s o now none

def emptyStore : Store := ⟨[], 1⟩

def runObsAux : Store → Nat → List Obs → Store
  | s, _, [] => s
  | s, t, o :: rest => runObsAux (identify s o t).2 (t + 1) rest

/-- The store after a sequence of observations applied to the empty store,
with timestamps 0, 1, 2, ... . -/
def runObs (l : List Obs) : Store := runObsAux emptyStore 0 l

/-! ### Specification concepts

The cluster notion of the specification (I2): contacts are in one cluster
when they are transitively connected by a shared email or a shared phone
number among non-deleted contacts. -/

/-- Two rows share an attribute: equal non-null emails or equal non-null
phone numbers. -/
def sharesAttr (a b : Contact) : Bool :=
  (match a.email, b.email with
   | some x, some y => x == y
   | _, _ => false) ||
  (match a.phoneNumber, b.phoneNumber with
   | some x, some y => x == y
   | _, _ => false)

/-- One round of reachability growth: add every non-deleted row sharing an
attribute with a row already reached. -/
def reachGrow (contacts : List Contact) (reach : List Nat) : List Nat :=
  reach ++ (contacts.filter (fun c => c.deletedAt == none && !(reach.contains c.id) &&
    contacts.any (fun d => d.deletedAt == none && reach.contains d.id &&
      sharesAttr d c))).map (fun c => c.id)

def reachIds (contacts : List Contact) : Nat → List Nat → List Nat
  | 0, r => r
  | n + 1, r => reachIds contacts n (reachGrow contacts r)

/-- `a` and `b` belong to the same cluster of the store. -/
def connected (contacts : List Contact) (a b : Contact) : Bool :=
  (reachIds contacts contacts.length [a.id]).contains b.id

/-- Every row marked `primary` has no `linkedId` (holds in every state the
code can reach from the empty store). -/
def PrimRoot (contacts : List Contact) : Prop :=
  ∀ c ∈ contacts, c.linkPrecedence = .primary → c.linkedId = none

/-- Every row marked `secondary` links directly to a row that is currently
`primary`. -/
def SecLinked (contacts : List Contact) : Prop :=
  ∀ c ∈ contacts, c.linkPrecedence = .secondary →
    ∃ p, p ∈ contacts ∧ c.linkedId = some p.id ∧ p.linkPrecedence = .primary

/-- Every stored id is below the `SERIAL` counter. -/
def IdsBound (s : Store) : Prop := ∀ c ∈ s.contacts, c.id < s.nextId

/-- Stored ids are pairwise distinct. -/
def IdsNodup (contacts : List Contact) : Prop :=
  (contacts.map (fun c => c.id)).Nodup

/-- The state invariant maintained by the code from the empty store. -/
def Inv (s : Store) : Prop :=
  PrimRoot s.contacts ∧ SecLinked s.contacts ∧ IdsBound s ∧ IdsNodup s.contacts

instance (contacts : List Contact) : Decidable (PrimRoot contacts) := by
  unfold PrimRoot
  infer_instance

instance (contacts : List Contact) : Decidable (SecLinked contacts) := by
  unfold SecLinked
  infer_instance

instance (s : Store) : Decidable (IdsBound s) := by
  unfold IdsBound
  infer_instance

instance (contacts : List Contact) : Decidable (IdsNodup contacts) := by
  unfold IdsNodup
  infer_instance

instance (s : Store) : Decidable (Inv s) := by
  unfold Inv
  infer_instance

/-! ### Concrete observations and rows used in the claim instances -/

def oA : Obs := ⟨some "a", none⟩

def oP5 : Obs := ⟨none, some "5"⟩

def oA5 : Obs := ⟨some "a", some "5"⟩

def oB5 : Obs := ⟨some "b", some "5"⟩

/-- The primary created by `oA` on the empty store. -/
def cA1 : Contact := ⟨1, none, some "a", none, .primary, 0, 0, none⟩

/-- The primary created by `oP5` after `oA`. -/
def cP2 : Contact := ⟨2, some "5", none, none, .primary, 1, 1, none⟩

/-- The secondary created by `oA5` after `oA`. -/
def cSec2 : Contact := ⟨2, some "5", some "a", some 1, .secondary, 1, 1, none⟩

/-- A corrupted store violating `PrimRoot`: row 2 is `primary` yet carries a
`linkedId`, so the chain of row 1 contains two primaries and the merge loop
issues a demotion. -/
def corruptStore : Store :=
  ⟨[⟨1, none, some "a", none, .primary, 0, 0, none⟩,
    ⟨2, some "5", none, some 1, .primary, 1, 1, none⟩], 3⟩

def oA7 : Obs := ⟨some "a", some "7"⟩

/-- A store whose only phone-"9" row is a secondary: resolving `o9` expands
only that secondary's (primary-free) chain. -/
def storeX : Store :=
  ⟨[⟨1, none, some "x", none, .primary, 0, 0, none⟩,
    ⟨2, some "9", some "x", some 1, .secondary, 1, 1, none⟩], 3⟩

def o9 : Obs := ⟨none, some "9"⟩

/-! ### Helper lemmas -/

theorem insertByCreated_perm (c : Contact) (l : List Contact) :
    (insertByCreated c l).Perm (c :: l) := by
  induction l with
  | nil => exact List.Perm.refl _
  | cons d ds ih =>
    unfold insertByCreated
    split
    · exact List.Perm.refl _
    · exact (ih.cons d).trans (List.Perm.swap c d ds)

theorem sortByCreated_perm : ∀ l : List Contact, (sortByCreated l).Perm l
  | [] => List.Perm.refl _
  | c :: cs => (insertByCreated_perm c (sortByCreated cs)).trans ((sortByCreated_perm cs).cons c)

theorem mem_getContactChain {contacts : List Contact} {root c : Contact}
    (h : c ∈ getContactChain contacts root) :
    c ∈ contacts ∧ c.deletedAt = none ∧
      c.id ∈ chainIdsAux contacts contacts.length [root.id] := by
  unfold getContactChain at h
  split at h
  · have h2 := (sortByCreated_perm _).mem_iff.mp h
    have h3 := List.mem_filter.mp h2
    have h4 := h3.2
    rw [Bool.and_eq_true] at h4
    refine ⟨h3.1, by simpa using h4.1, by simpa using h4.2⟩
  · cases h

theorem chainIdsAux_sound (contacts : List Contact) :
    ∀ (fuel : Nat) (ids : List Nat) (j : Nat), j ∈ chainIdsAux contacts fuel ids →
      j ∈ ids ∨ ∃ c, c ∈ contacts ∧ c.id = j ∧ c.linkedId ≠ none := by
  intro fuel
  induction fuel with
  | zero => intro ids j hj; exact Or.inl hj
  | succ n ih =>
    intro ids j hj
    rw [chainIdsAux] at hj
    rcases ih (chainGrow contacts ids) j hj with h | h
    · unfold chainGrow at h
      rcases List.mem_append.mp h with h | h
      · exact Or.inl h
      · rcases List.mem_map.mp h with ⟨c, hc, rfl⟩
        have hmem := (List.mem_filter.mp hc).1
        have hpred := (List.mem_filter.mp hc).2
        refine Or.inr ⟨c, hmem, rfl, ?_⟩
        cases hl : c.linkedId with
        | none => rw [hl] at hpred; simp at hpred
        | some l => simp [hl]
    · exact Or.inr h

theorem nodup_id_inj : ∀ {l : List Contact}, IdsNodup l →
    ∀ {a b : Contact}, a ∈ l → b ∈ l → a.id = b.id → a = b := by
  intro l
  induction l with
  | nil => intro _ a b ha; cases ha
  | cons x xs ih =>
    intro hn a b ha hb hab
    rw [IdsNodup, List.map_cons, List.nodup_cons] at hn
    rcases List.mem_cons.mp ha with rfl | ha₂ <;> rcases List.mem_cons.mp hb with rfl | hb₂
    · rfl
    · exact absurd (hab ▸ List.mem_map.mpr ⟨b, hb₂, rfl⟩) hn.1
    · exact absurd (hab ▸ List.mem_map.mpr ⟨a, ha₂, rfl⟩) hn.1
    · exact ih hn.2 ha₂ hb₂ hab

theorem idsNodup_perm {l₁ l₂ : List Contact} (h : l₁.Perm l₂) (hn : IdsNodup l₂) :
    IdsNodup l₁ :=
  ((h.map _).nodup_iff).mpr hn

theorem idsNodup_sublist {l₁ l₂ : List Contact} (h : l₁.Sublist l₂) (hn : IdsNodup l₂) :
    IdsNodup l₁ :=
  List.Nodup.sublist (List.Sublist.map _ h) hn

theorem chain_ids_nodup {contacts : List Contact} (hn : IdsNodup contacts) (root : Contact) :
    IdsNodup (getContactChain contacts root) := by
  unfold getContactChain
  split
  · exact idsNodup_perm (sortByCreated_perm _) (idsNodup_sublist (List.filter_sublist _) hn)
  · simp [IdsNodup]

theorem chain_primary_id {contacts : List Contact} (hp : PrimRoot contacts)
    (hn : IdsNodup contacts) {root x : Contact} (hx : x ∈ getContactChain contacts root)
    (hpx : x.linkPrecedence = .primary) : x.id = root.id := by
  obtain ⟨hmem, _, hid⟩ := mem_getContactChain hx
  rcases chainIdsAux_sound contacts _ _ _ hid with h | ⟨c, hc, hcid, hcl⟩
  · simpa using h
  · have hcx : c = x := nodup_id_inj hn hc hmem hcid
    rw [hcx] at hcl
    exact absurd (hp x hmem hpx) hcl

theorem all_id_eq_len_le_one : ∀ {l : List Contact} {n : Nat},
    (∀ x ∈ l, x.id = n) → IdsNodup l → l.length ≤ 1 := by
  intro l n h1 h2
  match l with
  | [] => simp
  | [x] => simp
  | x :: y :: t =>
    exfalso
    rw [IdsNodup, List.map_cons, List.map_cons, List.nodup_cons] at h2
    apply h2.1
    rw [h1 x (by simp), h1 y (by simp)]
    exact List.mem_cons_self _ _

theorem chain_primaries_le_one {contacts : List Contact} (hp : PrimRoot contacts)
    (hn : IdsNodup contacts) (root : Contact) :
    ((getContactChain contacts root).filter isPrimary).length ≤ 1 := by
  apply all_id_eq_len_le_one (n := root.id)
  · intro x hx
    have h := List.mem_filter.mp hx
    exact chain_primary_id hp hn h.1 (by simpa [isPrimary] using h.2)
  · exact idsNodup_sublist (List.filter_sublist _) (chain_ids_nodup hn root)

theorem buildResponse_ok {contacts : List Contact} {p : Contact}
    (h : contacts.find? isPrimary = some p) : ∃ r, buildResponse contacts = .ok r := by
  unfold buildResponse
  rw [h]
  exact ⟨_, rfl⟩

theorem find?_singleton_primary (p : Contact) (h : p.linkPrecedence = .primary) :
    [p].find? isPrimary = some p := by
  simp [List.find?, isPrimary, h]

theorem isPrimary_createContact_secondary (s : Store) (e ph : Option String)
    (l : Option Nat) (now : Nat) :
    isPrimary (createContact s e ph l .secondary now) = false := by
  simp [isPrimary, createContact]

/-- When the in-memory chain holds at most one primary, the merge phase issues
no demotion and just renders the chain. -/
theorem mergePhase_no_demote {s1 : Store} {fullChain2 : List Contact} {now : Nat}
    {failAt : Option Nat} {base : Nat}
    (h : (fullChain2.filter isPrimary).length ≤ 1) :
    mergePhase s1 fullChain2 now failAt base = (buildResponse fullChain2, s1) := by
  unfold mergePhase
  cases hf : fullChain2.filter isPrimary with
  | nil => rfl
  | cons p0 ps =>
    rw [hf] at h
    have hps : ps = [] := by
      cases ps with
      | nil => rfl
      | cons y ys => simp at h
    subst hps
    simp

/-- The branch taken on a chain with a primary either fails leaving the store
untouched, or succeeds inserting nothing, or succeeds inserting exactly the
new secondary row. -/
theorem attachAndMerge_cases (s : Store) (o : Obs) (fullChain : List Contact)
    (primary : Contact) (now : Nat) (failAt : Option Nat)
    (hle : (fullChain.filter isPrimary).length ≤ 1)
    (hfind : fullChain.find? isPrimary = some primary) :
    attachAndMerge s o fullChain primary now failAt = (.error .store, s) ∨
    (∃ r, attachAndMerge s o fullChain primary now failAt = (.ok r, s)) ∨
    (∃ r, attachAndMerge s o fullChain primary now failAt =
      (.ok r, insertContact s
        (createContact s o.email o.phoneNumber (some primary.id) .secondary now))) := by
  unfold attachAndMerge
  split
  · exact Or.inl rfl
  split
  · have hfil : ((fullChain ++
        [createContact s o.email o.phoneNumber (some primary.id) .secondary now]).filter
          isPrimary).length ≤ 1 := by
      rw [List.filter_append]
      simpa [List.filter, isPrimary_createContact_secondary] using hle
    have hfind2 : (fullChain ++
        [createContact s o.email o.phoneNumber (some primary.id) .secondary now]).find?
          isPrimary = some primary := by
      rw [List.find?_append, hfind]
      rfl
    obtain ⟨r, hr⟩ := buildResponse_ok hfind2
    refine Or.inr (Or.inr ⟨r, ?_⟩)
    rw [mergePhase_no_demote hfil, hr]
  · obtain ⟨r, hr⟩ := buildResponse_ok hfind
    refine Or.inr (Or.inl ⟨r, ?_⟩)
    rw [mergePhase_no_demote hle, hr]

/-- The one operation-level dichotomy everything else is derived from: on a
store where every primary is a root and ids are distinct, one `/identify`
operation either fails leaving the store exactly as it was, or succeeds
leaving the store unchanged, or succeeds appending exactly one fresh row
(a root primary, or a secondary linked to an existing primary).  In
particular no existing row is ever rewritten: the demotion loop is
unreachable. -/
theorem identifyCore_nil (s : Store) (o : Obs) (now : Nat) (failAt : Option Nat) :
    identifyCore s o [] now failAt =
      if fails failAt 1 then (.error .store, s)
      else (buildResponse [createContact s o.email o.phoneNumber none .primary now],
            insertContact s (createContact s o.email o.phoneNumber none .primary now)) := rfl

theorem identifyCore_cons_none (s : Store) (o : Obs) (r : Contact) (rest : List Contact)
    (now : Nat) (failAt : Option Nat)
    (hfind : (getContactChain s.contacts r).find? isPrimary = none) :
    identifyCore s o (r :: rest) now failAt =
      if fails failAt 1 then (.error .store, s)
      else if fails failAt 2 then (.error .store, s)
      else (buildResponse [createContact s o.email o.phoneNumber none .primary now],
            insertContact s (createContact s o.email o.phoneNumber none .primary now)) := by
  simp only [identifyCore, hfind]

theorem identifyCore_cons_some (s : Store) (o : Obs) (r : Contact) (rest : List Contact)
    (now : Nat) (failAt : Option Nat) (primary : Contact)
    (hfind : (getContactChain s.contacts r).find? isPrimary = some primary) :
    identifyCore s o (r :: rest) now failAt =
      if fails failAt 1 then (.error .store, s)
      else attachAndMerge s o (getContactChain s.contacts r) primary now failAt := by
  simp only [identifyCore, hfind]

theorem identifyF_cases (s : Store) (o : Obs) (now : Nat) (failAt : Option Nat)
    (hp : PrimRoot s.contacts) (hn : IdsNodup s.contacts) :
    (∃ e, identifyF s o now failAt = (.error e, s)) ∨
    (∃ r, identifyF s o now failAt = (.ok r, s)) ∨
    (∃ r c, identifyF s o now failAt = (.ok r, insertContact s c) ∧
      c.id = s.nextId ∧ c.createdAt = now ∧ c.deletedAt = none ∧
      ((c.linkPrecedence = .primary ∧ c.linkedId = none) ∨
       (c.linkPrecedence = .secondary ∧
         ∃ p, p ∈ s.contacts ∧ c.linkedId = some p.id ∧ p.linkPrecedence = .primary))) := by
  unfold identifyF
  split
  · exact Or.inl ⟨.invalid, rfl⟩
  split
  · exact Or.inl ⟨.store, rfl⟩
  cases hrel : getRelatedContacts s.contacts o.email o.phoneNumber with
  | nil =>
    rw [identifyCore_nil]
    split
    · exact Or.inl ⟨.store, rfl⟩
    · obtain ⟨r, hr⟩ := buildResponse_ok
        (find?_singleton_primary (createContact s o.email o.phoneNumber none .primary now) rfl)
      exact Or.inr (Or.inr ⟨r, createContact s o.email o.phoneNumber none .primary now,
        by rw [hr], rfl, rfl, rfl, Or.inl ⟨rfl, rfl⟩⟩)
  | cons r rest =>
    cases hfind : (getContactChain s.contacts r).find? isPrimary with
    | none =>
      rw [identifyCore_cons_none s o r rest now failAt hfind]
      split
      · exact Or.inl ⟨.store, rfl⟩
      split
      · exact Or.inl ⟨.store, rfl⟩
      · obtain ⟨r2, hr⟩ := buildResponse_ok
          (find?_singleton_primary (createContact s o.email o.phoneNumber none .primary now) rfl)
        exact Or.inr (Or.inr ⟨r2, createContact s o.email o.phoneNumber none .primary now,
          by rw [hr], rfl, rfl, rfl, Or.inl ⟨rfl, rfl⟩⟩)
    | some primary =>
      rw [identifyCore_cons_some s o r rest now failAt primary hfind]
      split
      · exact Or.inl ⟨.store, rfl⟩
      have hle := chain_primaries_le_one hp hn r
      have hPmem : primary ∈ s.contacts :=
        (mem_getContactChain (List.mem_of_find?_eq_some hfind)).1
      have hPprim : primary.linkPrecedence = .primary := by
        simpa [isPrimary] using List.find?_some hfind
      rcases attachAndMerge_cases s o _ primary now failAt hle hfind with h | ⟨r2, h⟩ | ⟨r2, h⟩
      · exact Or.inl ⟨.store, h⟩
      · exact Or.inr (Or.inl ⟨r2, h⟩)
      · exact Or.inr (Or.inr ⟨r2,
          createContact s o.email o.phoneNumber (some primary.id) .secondary now,
          h, rfl, rfl, rfl, Or.inr ⟨rfl, primary, hPmem, rfl, hPprim⟩⟩)

theorem insertContact_inv (s : Store) (c : Contact) (h : Inv s)
    (hid : c.id = s.nextId)
    (hc : (c.linkPrecedence = .primary ∧ c.linkedId = none) ∨
          (c.linkPrecedence = .secondary ∧
            ∃ p, p ∈ s.contacts ∧ c.linkedId = some p.id ∧ p.linkPrecedence = .primary)) :
    Inv (insertContact s c) := by
  obtain ⟨hp, hs, hb, hn⟩ := h
  refine ⟨?_, ?_, ?_, ?_⟩
  · intro x hx hxp
    rcases List.mem_append.mp hx with hx | hx
    · exact hp x hx hxp
    · have hxc : x = c := by simpa using hx
      subst hxc
      rcases hc with ⟨_, h2⟩ | ⟨h1, _⟩
      · exact h2
      · rw [h1] at hxp; cases hxp
  · intro x hx hxs
    rcases List.mem_append.mp hx with hx | hx
    · obtain ⟨p, hp1, hp2, hp3⟩ := hs x hx hxs
      exact ⟨p, List.mem_append_left _ hp1, hp2, hp3⟩
    · have hxc : x = c := by simpa using hx
      subst hxc
      rcases hc with ⟨h1, _⟩ | ⟨_, p, hp1, hp2, hp3⟩
      · rw [h1] at hxs; cases hxs
      · exact ⟨p, List.mem_append_left _ hp1, hp2, hp3⟩
  · intro x hx
    rcases List.mem_append.mp hx with hx | hx
    · exact Nat.lt_succ_of_lt (hb x hx)
    · have hxc : x = c := by simpa using hx
      subst hxc
      rw [hid]
      exact Nat.lt_succ_self _
  · rw [IdsNodup]
    show (List.map _ (s.contacts ++ [c])).Nodup
    rw [List.map_append, List.nodup_append]
    refine ⟨hn, by simp, ?_⟩
    intro a ha hmem
    rcases List.mem_map.mp ha with ⟨x, hx, rfl⟩
    have hlt : x.id < s.nextId := hb x hx
    have h2 : x.id = c.id := by simpa using hmem
    rw [h2, hid] at hlt
    exact absurd hlt (Nat.lt_irrefl _)

theorem identify_inv (s : Store) (o : Obs) (now : Nat) (h : Inv s) :
    Inv (identify s o now).2 := by
  rcases identifyF_cases s o now none h.1 h.2.2.2 with
    ⟨e, he⟩ | ⟨r, hr⟩ | ⟨r, c, heq, hid, _, _, hc⟩
  · show Inv (identifyF s o now none).2
    rw [he]
    exact h
  · show Inv (identifyF s o now none).2
    rw [hr]
    exact h
  · show Inv (identifyF s o now none).2
    rw [heq]
    exact insertContact_inv s c h hid hc

theorem inv_runObsAux : ∀ (l : List Obs) (s : Store) (t : Nat), Inv s → Inv (runObsAux s t l) := by
  intro l
  induction l with
  | nil => intro s t h; exact h
  | cons o rest ih => intro s t h; exact ih _ _ (identify_inv s o t h)

theorem inv_emptyStore : Inv emptyStore := by
  refine ⟨?_, ?_, ?_, ?_⟩ <;> simp [PrimRoot, SecLinked, IdsBound, IdsNodup, emptyStore]

theorem inv_runObs (l : List Obs) : Inv (runObs l) :=
  inv_runObsAux l emptyStore 0 inv_emptyStore

/-- With no injected store failure the demotion loop always runs to
completion. -/
theorem demoteLoop_none_fst (oldestId now : Nat) :
    ∀ (l : List Contact) (k : Nat) (contacts : List Contact),
      (demoteLoop oldestId now none k contacts l).1 = true := by
  intro l
  induction l with
  | nil => intro k contacts; rfl
  | cons p rest ih =>
    intro k contacts
    unfold demoteLoop
    split
    · exact ih _ _
    · have hf : fails none k = false := rfl
      rw [hf]
      simp only [Bool.false_eq_true, if_false]
      exact ih _ _

theorem mergePhase_nil (s1 : Store) (fullChain2 : List Contact) (now : Nat)
    (failAt : Option Nat) (base : Nat) (hf : fullChain2.filter isPrimary = []) :
    mergePhase s1 fullChain2 now failAt base = (buildResponse fullChain2, s1) := by
  simp only [mergePhase, hf]

theorem mergePhase_cons (s1 : Store) (fullChain2 : List Contact) (now : Nat)
    (failAt : Option Nat) (base : Nat) (p0 : Contact) (ps : List Contact)
    (hf : fullChain2.filter isPrimary = p0 :: ps) :
    mergePhase s1 fullChain2 now failAt base =
      if ps.isEmpty then (buildResponse fullChain2, s1)
      else
        match demoteLoop (reduceOldest p0 ps).id now failAt base s1.contacts (p0 :: ps) with
        | (true, cs) => (buildResponse fullChain2, ⟨cs, s1.nextId⟩)
        | (false, cs) => (.error .store, ⟨cs, s1.nextId⟩) := by
  simp only [mergePhase, hf]

/-- With no injected store failure the merge phase always answers a rendered
response when the chain has a primary — be it after zero demotions or after
demoting every non-oldest primary. -/
theorem mergePhase_none_ok (s1 : Store) (fullChain2 : List Contact) (now base : Nat)
    (hfind : ∃ pr, fullChain2.find? isPrimary = some pr) :
    ∃ resp, (mergePhase s1 fullChain2 now none base).1 = .ok resp := by
  obtain ⟨pr, hpr⟩ := hfind
  obtain ⟨resp, hresp⟩ := buildResponse_ok hpr
  refine ⟨resp, ?_⟩
  cases hf : fullChain2.filter isPrimary with
  | nil => rw [mergePhase_nil s1 fullChain2 now none base hf]; exact hresp
  | cons p0 ps =>
    rw [mergePhase_cons s1 fullChain2 now none base p0 ps hf]
    split
    · exact hresp
    · cases hd : demoteLoop (reduceOldest p0 ps).id now none base s1.contacts (p0 :: ps) with
      | mk ok cs =>
        have hok : ok = true := by
          have hh := demoteLoop_none_fst (reduceOldest p0 ps).id now (p0 :: ps) base s1.contacts
          rw [hd] at hh
          exact hh
        subst hok
        exact hresp

theorem find?_isSome_of_filter_cons {l : List Contact} {p0 : Contact} {ps : List Contact}
    (h : l.filter isPrimary = p0 :: ps) : ∃ pr, l.find? isPrimary = some pr := by
  have hmem : p0 ∈ l.filter isPrimary := by
    rw [h]
    exact List.mem_cons_self _ _
  have h2 := List.mem_filter.mp hmem
  cases hf : l.find? isPrimary with
  | some pr => exact ⟨pr, rfl⟩
  | none => exact absurd h2.2 (List.find?_eq_none.mp hf p0 h2.1)

/-! ### Claims -/

/-- C1, counterexample: the observation `oA5` (email "a", phone "5") matches
contacts of two previously disjoint clusters (rows 1 and 2), yet the code
performs no re-resolution and no merge: row 2 stays an untouched primary with
no `linkedId` — it is neither demoted nor re-pointed; only a new secondary
under row 1 is appended. -/
theorem C1_counterexample :
    connected (runObs [oA, oP5]).contacts cA1 cP2 = false ∧
    getRelatedContacts (runObs [oA, oP5]).contacts oA5.email oA5.phoneNumber = [cA1, cP2] ∧
    (runObs [oA, oP5, oA5]).contacts =
      [cA1, cP2, ⟨3, some "5", some "a", some 1, .secondary, 2, 2, none⟩] := by
  decide

/-- C1, amended: on any store whose primaries are roots with distinct ids
(every state the code can reach), a consolidation operation never rewrites an
existing row — it appends at most one new contact.  In particular a bridging
observation triggers no demotion and no re-pointing; the second cluster is
left untouched. -/
theorem C1_bridge_appends_only (s : Store) (o : Obs) (now : Nat)
    (hp : PrimRoot s.contacts) (hn : IdsNodup s.contacts) :
    ∃ t, (identify s o now).2.contacts = s.contacts ++ t ∧ t.length ≤ 1 := by
  rcases identifyF_cases s o now none hp hn with ⟨e, he⟩ | ⟨r, hr⟩ | ⟨r, c, heq, _⟩
  · refine ⟨[], ?_, by simp⟩
    show (identifyF s o now none).2.contacts = s.contacts ++ []
    rw [he, List.append_nil]
  · refine ⟨[], ?_, by simp⟩
    show (identifyF s o now none).2.contacts = s.contacts ++ []
    rw [hr, List.append_nil]
  · refine ⟨[c], ?_, by simp⟩
    show (identifyF s o now none).2.contacts = s.contacts ++ [c]
    rw [heq]
    rfl

/-- C1, witness for the amended theorem at the bridging observation. -/
theorem C1_bridge_appends_only_witness :
    ∃ t, (identify (runObs [oA, oP5]) oA5 2).2.contacts =
      (runObs [oA, oP5]).contacts ++ t ∧ t.length ≤ 1 :=
  C1_bridge_appends_only (runObs [oA, oP5]) oA5 2 (by decide) (by decide)

/-- C2: after the observation sequence `oA, oP5, oA5` from the empty store,
rows 1 and 2 are transitively connected (via row 3, which shares an email
with row 1 and a phone with row 2) yet both are `primary` — the cluster has
two primaries, violating the single-primary invariant. -/
theorem C2_two_primaries :
    cA1 ∈ (runObs [oA, oP5, oA5]).contacts ∧
    cP2 ∈ (runObs [oA, oP5, oA5]).contacts ∧
    connected (runObs [oA, oP5, oA5]).contacts cA1 cP2 = true ∧
    cA1.linkPrecedence = .primary ∧ cP2.linkPrecedence = .primary ∧
    cA1.id ≠ cP2.id := by
  decide

/-- C3: a phone-only observation matching a secondary row resolves to a chain
holding only that secondary (its primary is absent, because the recursive
query never walks upward), and the operation then creates a brand-new primary
row 3 instead of reusing primary row 1. -/
theorem C3_new_primary_for_secondary_match :
    (runObs [oA, oA5]).contacts = [cA1, cSec2] ∧
    getRelatedContacts (runObs [oA, oA5]).contacts oP5.email oP5.phoneNumber = [cSec2] ∧
    getContactChain (runObs [oA, oA5]).contacts cSec2 = [cSec2] ∧
    identify (runObs [oA, oA5]) oP5 2 =
      (.ok ⟨3, [none], [some "5"], []⟩,
       ⟨[cA1, cSec2, ⟨3, some "5", none, none, .primary, 2, 2, none⟩], 4⟩) := by
  decide

/-- C4: the observation `oB5` applied twice in a row: the first application
(on the store after `oA, oA5`) inserts row 3, the identical second
application inserts row 4 and returns a different consolidated identity
(primary id 4 instead of 3). -/
theorem C4_not_idempotent :
    (identify (runObs [oA, oA5]) oB5 2).2.contacts.length = 3 ∧
    (identify (runObs [oA, oA5, oB5]) oB5 3).2.contacts.length = 4 ∧
    (identify (runObs [oA, oA5]) oB5 2).1 ≠ (identify (runObs [oA, oA5, oB5]) oB5 3).1 := by
  decide

/-- C5: an email-only observation on the empty store creates a primary with
no phone, and the rendered `phoneNumbers` is `[null]` — the primary's own
absent value is included unfiltered — rather than the `[]` the claim
states. -/
theorem C5_null_in_phone_numbers :
    identify emptyStore oA 0 = (.ok ⟨1, [some "a"], [none], []⟩, ⟨[cA1], 2⟩) ∧
    (identify emptyStore oA 0).1 ≠ .ok ⟨1, [some "a"], [], []⟩ := by
  decide

/-- C6, counterexample: on a corrupted store (primary row 2 carries a
`linkedId`, so row 1's chain holds two primaries) the observation `oA7`
inserts secondary row 3 and then fails at the demotion call: the store is
left with the inserted secondary and the un-demoted primary — not as it was
before the operation. -/
theorem C6_counterexample :
    identifyF corruptStore oA7 5 (some 3) =
      (.error .store,
       ⟨corruptStore.contacts ++ [⟨3, some "7", some "a", some 1, .secondary, 5, 5, none⟩], 4⟩) ∧
    (identifyF corruptStore oA7 5 (some 3)).2 ≠ corruptStore := by
  decide

/-- C6, amended: on any store whose primaries are roots with distinct ids
(every state the code can reach from the empty store), a failing operation
leaves the store exactly as it was — every mutation of such an operation is
a single atomic insert, and nothing after it can fail. -/
theorem C6_atomic_on_wf_store (s : Store) (o : Obs) (now : Nat) (failAt : Option Nat)
    (hp : PrimRoot s.contacts) (hn : IdsNodup s.contacts) (e : SErr) (s2 : Store)
    (h : identifyF s o now failAt = (.error e, s2)) : s2 = s := by
  rcases identifyF_cases s o now failAt hp hn with ⟨e2, he⟩ | ⟨r, hr⟩ | ⟨r, c, heq, _⟩
  · rw [he] at h
    exact (congrArg Prod.snd h).symm
  · rw [hr] at h
    exact absurd (congrArg Prod.fst h) (by simp)
  · rw [heq] at h
    exact absurd (congrArg Prod.fst h) (by simp)

/-- C6, witness for the amended theorem: a store failure on the very first
query leaves the single-contact store unchanged. -/
theorem C6_atomic_on_wf_store_witness : (⟨[cA1], 2⟩ : Store) = runObs [oA] :=
  C6_atomic_on_wf_store (runObs [oA]) ⟨some "b", none⟩ 1 (some 0) (by decide) (by decide)
    .store ⟨[cA1], 2⟩ (by decide)

/-- C7, counterexample: on `storeX` the phone-only observation `o9` resolves
a chain with zero primaries, yet the operation does not fail with any
integrity fault: it succeeds and silently creates new primary row 3. -/
theorem C7_counterexample :
    ((getContactChain storeX.contacts ⟨2, some "9", some "x", some 1, .secondary, 1, 1, none⟩).filter
        isPrimary).length = 0 ∧
    getRelatedContacts storeX.contacts o9.email o9.phoneNumber =
      [⟨2, some "9", some "x", some 1, .secondary, 1, 1, none⟩] ∧
    identify storeX o9 2 =
      (.ok ⟨3, [none], [some "9"], []⟩,
       ⟨storeX.contacts ++ [⟨3, some "9", none, none, .primary, 2, 2, none⟩], 4⟩) := by
  decide

/-- C7, amended: for any matched observation neither integrity breach makes
the operation fail.  A resolved chain with zero primaries does not fail: the
code inserts a fresh primary built from the observation and answers with its
id.  A resolved chain with more than one primary does not fail either: the
operation completes and answers a rendered consolidated identity. -/
theorem C7_no_integrity_fault (s : Store) (o : Obs) (now : Nat) (r : Contact)
    (rest : List Contact)
    (hval : (!truthy o.email && !truthy o.phoneNumber) = false)
    (hrel : getRelatedContacts s.contacts o.email o.phoneNumber = r :: rest) :
    ((getContactChain s.contacts r).find? isPrimary = none →
      identify s o now =
        (buildResponse [createContact s o.email o.phoneNumber none .primary now],
         insertContact s (createContact s o.email o.phoneNumber none .primary now)) ∧
      ∃ resp, buildResponse [createContact s o.email o.phoneNumber none .primary now] =
        .ok resp ∧ resp.primaryContatctId = s.nextId) ∧
    (∀ p0 ps, (getContactChain s.contacts r).filter isPrimary = p0 :: ps → ps ≠ [] →
      ∃ resp, (identify s o now).1 = .ok resp) := by
  constructor
  · intro hfind
    constructor
    · show identifyF s o now none = _
      unfold identifyF
      rw [hval, hrel, identifyCore_cons_none s o r rest now none hfind]
      simp [fails]
    · rw [buildResponse,
        find?_singleton_primary (createContact s o.email o.phoneNumber none .primary now) rfl]
      exact ⟨_, rfl, rfl⟩
  · intro p0 ps hfil hne
    obtain ⟨pr, hfpr⟩ := find?_isSome_of_filter_cons hfil
    have hid : identify s o now =
        attachAndMerge s o (getContactChain s.contacts r) pr now none := by
      show identifyF s o now none = _
      unfold identifyF
      rw [hval, hrel, identifyCore_cons_some s o r rest now none pr hfpr]
      simp [fails]
    rw [hid]
    unfold attachAndMerge
    have hf2 : fails none 2 = false := rfl
    rw [hf2, Bool.and_false]
    simp only [Bool.false_eq_true, if_false]
    split
    · apply mergePhase_none_ok
      refine ⟨pr, ?_⟩
      rw [List.find?_append, hfpr]
      rfl
    · exact mergePhase_none_ok _ _ _ _ ⟨pr, hfpr⟩

/-- C7, witness for the amended theorem: on the corrupted store whose chain
holds two primaries, the operation succeeds instead of surfacing an
integrity fault. -/
theorem C7_no_integrity_fault_witness :
    ∃ resp, (identify corruptStore oA7 5).1 = .ok resp :=
  (C7_no_integrity_fault corruptStore oA7 5
    ⟨1, none, some "a", none, .primary, 0, 0, none⟩ [] (by decide) (by decide)).2
    ⟨1, none, some "a", none, .primary, 0, 0, none⟩
    [⟨2, some "5", none, some 1, .primary, 1, 1, none⟩] (by decide) (by decide)

/-- C8: in every state reachable from the empty store, every non-deleted
secondary's `linkedId` refers to a contact that is currently primary. -/
theorem C8_no_orphan_secondary (l : List Obs) (c : Contact)
    (hc : c ∈ (runObs l).contacts) (_hd : c.deletedAt = none)
    (hs : c.linkPrecedence = .secondary) :
    ∃ p, p ∈ (runObs l).contacts ∧ c.linkedId = some p.id ∧ p.linkPrecedence = .primary :=
  (inv_runObs l).2.1 c hc hs

/-- C8, witness: the secondary created by `oA5` links to primary row 1. -/
theorem C8_no_orphan_secondary_witness :
    ∃ p, p ∈ (runObs [oA, oA5]).contacts ∧ cSec2.linkedId = some p.id ∧
      p.linkPrecedence = .primary :=
  C8_no_orphan_secondary [oA, oA5] cSec2 (by decide) rfl rfl

/-- C9, counterexample: the two orders of the same matched-contact set
`{row 1, row 2}` produce different results — the secondary is attached to
whichever matched contact comes first, and the responses name different
primaries. -/
theorem C9_counterexample :
    getRelatedContacts (runObs [oA, oP5]).contacts oA5.email oA5.phoneNumber = [cA1, cP2] ∧
    List.Perm [cP2, cA1] [cA1, cP2] ∧
    identifyCore (runObs [oA, oP5]) oA5 [cA1, cP2] 2 none ≠
      identifyCore (runObs [oA, oP5]) oA5 [cP2, cA1] 2 none := by
  refine ⟨by decide, List.Perm.swap cA1 cP2 [], by decide⟩

/-- C9, amended: the outcome depends on the matched rows only through the
first one: two result orders with the same head produce identical responses
and stores. -/
theorem C9_first_match_determines (s : Store) (o : Obs) (r1 r2 : List Contact) (now : Nat)
    (failAt : Option Nat) (h : r1.head? = r2.head?) :
    identifyCore s o r1 now failAt = identifyCore s o r2 now failAt := by
  cases r1 with
  | nil =>
    cases r2 with
    | nil => rfl
    | cons b bs => simp at h
  | cons a as =>
    cases r2 with
    | nil => simp at h
    | cons b bs =>
      simp at h
      subst h
      rfl

/-- C9, witness for the amended theorem: dropping the second matched row
changes nothing. -/
theorem C9_first_match_determines_witness :
    identifyCore (runObs [oA, oP5]) oA5 [cA1, cP2] 2 none =
      identifyCore (runObs [oA, oP5]) oA5 [cA1] 2 none :=
  C9_first_match_determines (runObs [oA, oP5]) oA5 [cA1, cP2] [cA1] 2 none rfl

/-- C10: the demotion update rewrites only the targeted row's
`linkPrecedence`, `linkedId` and `updatedAt`; its identity, attributes,
`createdAt` and `deletedAt` are preserved, and every other row is returned
verbatim. -/
theorem C10_update_frame (contacts : List Contact) (cid lid now : Nat) :
    (updateContactToSecondary contacts cid lid now).length = contacts.length ∧
    ∀ (i : Nat) (c c2 : Contact), contacts[i]? = some c →
      (updateContactToSecondary contacts cid lid now)[i]? = some c2 →
      (c2.id = c.id ∧ c2.email = c.email ∧ c2.phoneNumber = c.phoneNumber ∧
       c2.createdAt = c.createdAt ∧ c2.deletedAt = c.deletedAt) ∧
      (c.id ≠ cid → c2 = c) ∧
      (c.id = cid → c2.linkPrecedence = .secondary ∧ c2.linkedId = some lid ∧
        c2.updatedAt = now) := by
  constructor
  · simp [updateContactToSecondary]
  · intro i c c2 hc hc2
    rw [updateContactToSecondary, List.getElem?_map, hc] at hc2
    have hfc : c2 = if c.id == cid then
        { c with linkedId := some lid, linkPrecedence := .secondary, updatedAt := now }
      else c := by
      simpa using hc2.symm
    by_cases h : c.id = cid
    · rw [hfc, if_pos (by simpa using h)]
      exact ⟨⟨rfl, rfl, rfl, rfl, rfl⟩, fun hne => absurd h hne, fun _ => ⟨rfl, rfl, rfl⟩⟩
    · rw [hfc, if_neg (by simpa using h)]
      exact ⟨⟨rfl, rfl, rfl, rfl, rfl⟩, fun _ => rfl, fun he => absurd he h⟩

/-- C10, witness at a concrete two-row store, demoting row 2 under row 1. -/
theorem C10_update_frame_witness :
    (updateContactToSecondary [cA1, cP2] 2 1 7).length = ([cA1, cP2] : List Contact).length ∧
    ((⟨2, some "5", none, some 1, .secondary, 1, 7, none⟩ : Contact).id = cP2.id ∧
      (⟨2, some "5", none, some 1, .secondary, 1, 7, none⟩ : Contact).email = cP2.email ∧
      (⟨2, some "5", none, some 1, .secondary, 1, 7, none⟩ : Contact).phoneNumber =
        cP2.phoneNumber ∧
      (⟨2, some "5", none, some 1, .secondary, 1, 7, none⟩ : Contact).createdAt = cP2.createdAt ∧
      (⟨2, some "5", none, some 1, .secondary, 1, 7, none⟩ : Contact).deletedAt = cP2.deletedAt) ∧
    (cP2.id ≠ 2 → (⟨2, some "5", none, some 1, .secondary, 1, 7, none⟩ : Contact) = cP2) ∧
    (cP2.id = 2 →
      (⟨2, some "5", none, some 1, .secondary, 1, 7, none⟩ : Contact).linkPrecedence =
        .secondary ∧
      (⟨2, some "5", none, some 1, .secondary, 1, 7, none⟩ : Contact).linkedId = some 1 ∧
      (⟨2, some "5", none, some 1, .secondary, 1, 7, none⟩ : Contact).updatedAt = 7) :=
  ⟨(C10_update_frame [cA1, cP2] 2 1 7).1,
   (C10_update_frame [cA1, cP2] 2 1 7).2 1 cP2
     ⟨2, some "5", none, some 1, .secondary, 1, 7, none⟩ (by decide) (by decide)⟩

end IdentityService
